import Mathlib

/-!
# VNote start-up and diagnostic logger (src/main.cpp)

A shallow embedding of the three functions of `src/main.cpp`:

* `initLogFile`  (lines 30-38, release build only),
* `VLogger`      (lines 41-116, both builds),
* `main`         (lines 118-225).

Conditional compilation on `QT_NO_DEBUG` is a boolean parameter `release`.
Qt and libc primitives are given their documented behaviour on a POSIX host:

* a `QString` is a `String`; `toUtf8`/`toStdString` is UTF-8 encoding;
* `QTextStream` buffers what is streamed into it and hands the buffer to its
  device when the stream is destroyed or when the device is about to close;
  its codec is the locale codec, which `main` sets to UTF-8, so the bytes
  reaching the file are the UTF-8 bytes streamed in; the `Text` open flag
  leaves the line feed unchanged;
* opening a file succeeds; `WriteOnly` truncates, `Append` keeps the content
  and every write lands at the end;
* `fprintf` with `%s` prints a zero-terminated string, with `%u` an unsigned
  32-bit number in decimal.

Classes of the repository that are not part of `src/main.cpp`
(`VSingleInstanceGuard`, `VUtils`, `VConfigManager`, `VPalette`,
`VMainWindow`) appear in `main` only through their calls; the results `main`
reads from them are fields of `Env`, and the calls are recorded as `Event`s.
-/

namespace VNote

/-! ## Bytes and strings -/

abbrev Bytes := List UInt8

/-- UTF-8 encoding of a string: `QString::toUtf8`, `QString::toStdString`. -/
def toUtf8 (s : String) : Bytes :=
  s.data.flatMap String.utf8EncodeChar

/-- What `%s` prints for a `const char *`: the bytes before the first zero byte. -/
def cstr (b : Bytes) : Bytes :=
  b.takeWhile (fun x => x != 0)

/-- What `%u` prints for an `int` argument: the value modulo 2^32, in decimal. -/
def fmtU (n : Int) : Bytes :=
  toUtf8 (Nat.repr (n % 4294967296).toNat)

/-- The name of the file without its directory: `QFileInfo(path).fileName()`,
the text after the last slash. -/
def fileName (path : String) : String :=
  String.mk (path.data.reverse.takeWhile (fun c => c != '/')).reverse

/-! ## Data model -/

/-- Severity of a record (`QtMsgType`; `QtSystemMsg` is an alias of `QtCriticalMsg`). -/
inductive QtMsgType where
  | QtDebugMsg
  | QtWarningMsg
  | QtCriticalMsg
  | QtFatalMsg
  | QtInfoMsg
  deriving DecidableEq, Repr

/-- The part of `QMessageLogContext` that `VLogger` reads. -/
structure QMessageLogContext where
  file : String
  line : Int
  deriving DecidableEq, Repr

/-- The two open modes used by `initLogFile` (each combined with `QIODevice::Text`). -/
inductive OpenMode where
  | WriteOnly
  | Append
  deriving DecidableEq, Repr

/-- The global `QFile g_logFile`: its file name, its open mode (`none` when
closed) and the offset of the next write. -/
structure QFile where
  fileName : String
  openMode : Option OpenMode
  pos : Nat
  deriving DecidableEq, Repr

/-- The file system: the content of the artifact at each path, `none` when absent. -/
abbrev Disk := String → Option Bytes

/-- Replace the content of one path. -/
def Disk.set (d : Disk) (p : String) (c : Bytes) : Disk :=
  fun q => if q = p then some c else d q

/-- An operation performed on the console stream `stderr`. -/
inductive StderrOp where
  | write (b : Bytes)
  | flush
  deriving DecidableEq, Repr

/-- The process state the logger works on: the globals `g_debugLog` and
`g_logFile` (release build), the file system, the operations performed on
`stderr` so far, and whether `abort()` has been called. -/
structure World where
  g_debugLog : Bool
  g_logFile : QFile
  disk : Disk
  stderr : List StderrOp
  aborted : Bool

/-- The state at process start: `g_debugLog = false`, `g_logFile` default-constructed. -/
def World.start (disk : Disk) : World :=
  { g_debugLog := false
    g_logFile := { fileName := "", openMode := none, pos := 0 }
    disk := disk
    stderr := []
    aborted := false }

/-- The content of the artifact named by `g_logFile` (empty when absent). -/
def World.logContent (w : World) : Bytes :=
  (w.disk w.g_logFile.fileName).getD []

/-! ## `QFile` operations on `g_logFile` -/

/-- Close `g_logFile` (`QFile::close`). -/
def World.close (w : World) : World :=
  { w with g_logFile := { w.g_logFile with openMode := none, pos := 0 } }

/-- Name the file (`QFile::setFileName`); an open file is closed first. -/
def World.setFileName (w : World) (name : String) : World :=
  { w with g_logFile := { fileName := name, openMode := none, pos := 0 } }

/-- Size in bytes of the named artifact (`QFile::size`), 0 when absent. -/
def World.size (w : World) : Nat :=
  w.logContent.length

/-- Open `g_logFile` (`QFile::open`): `WriteOnly` creates or truncates and
writes from offset 0; `Append` creates or keeps the content and writes at the end. -/
def World.open (w : World) (mode : OpenMode) : World :=
  match mode with
  | OpenMode.WriteOnly =>
    { w with
      g_logFile := { w.g_logFile with openMode := some OpenMode.WriteOnly, pos := 0 }
      disk := w.disk.set w.g_logFile.fileName [] }
  | OpenMode.Append =>
    { w with
      g_logFile := { w.g_logFile with openMode := some OpenMode.Append, pos := w.size }
      disk := w.disk.set w.g_logFile.fileName w.logContent }

/-- Hand bytes to `g_logFile` (`QIODevice::write`): nothing happens on a closed
file; in `Append` mode the bytes go to the end; in `WriteOnly` mode they
replace the content from the current offset on. -/
def World.write (w : World) (b : Bytes) : World :=
  match w.g_logFile.openMode with
  | none => w
  | some OpenMode.Append =>
    { w with
      g_logFile := { w.g_logFile with pos := (w.logContent ++ b).length }
      disk := w.disk.set w.g_logFile.fileName (w.logContent ++ b) }
  | some OpenMode.WriteOnly =>
    { w with
      g_logFile := { w.g_logFile with pos := w.g_logFile.pos + b.length }
      disk := w.disk.set w.g_logFile.fileName
        (w.logContent.take w.g_logFile.pos ++ b
          ++ w.logContent.drop (w.g_logFile.pos + b.length)) }

/-! ## `initLogFile` -/

/-- The macro `MAX_LOG_SIZE`: `5 * 1024 * 1024`. -/
def MAX_LOG_SIZE : Nat := 5 * 1024 * 1024

/-- Source lines 30-38. -/
def initLogFile (w : World) (p_file : String) : World :=
  let w1 := w.setFileName p_file
  if w1.size ≥ MAX_LOG_SIZE then
    w1.open OpenMode.WriteOnly
  else
    w1.open OpenMode.Append

/-! ## `VLogger` -/

/-- The `switch` of lines 52-74. -/
def header (type : QtMsgType) : String :=
  match type with
  | QtMsgType.QtDebugMsg => "Debug:"
  | QtMsgType.QtInfoMsg => "Info:"
  | QtMsgType.QtWarningMsg => "Warning:"
  | QtMsgType.QtCriticalMsg => "Critical:"
  | QtMsgType.QtFatalMsg => "Fatal:"

/-- The bytes produced by `fprintf(stderr, "%s(%s:%u) %s\n", header, file, line, msg)`. -/
def fprintfLine (hdr file : Bytes) (line : Int) (localMsg : Bytes) : Bytes :=
  cstr hdr ++ toUtf8 "(" ++ cstr file ++ toUtf8 ":" ++ fmtU line ++ toUtf8 ") "
    ++ cstr localMsg ++ toUtf8 "\n"

/-- Source lines 41-116; `release` says whether `QT_NO_DEBUG` is defined. -/
def VLogger (release : Bool) (w : World) (type : QtMsgType)
    (context : QMessageLogContext) (msg : String) : World :=
  if release && (!w.g_debugLog && type == QtMsgType.QtDebugMsg) then
    w
  else
    let localMsg := toUtf8 msg
    let hdr := header type
    if release then
      -- QTextStream stream(&g_logFile); stream << header << localMsg << "\n";
      let stream := toUtf8 hdr ++ localMsg ++ toUtf8 "\n"
      if type == QtMsgType.QtFatalMsg then
        -- g_logFile.close() lets the stream flush, then closes; abort()
        { (w.write stream).close with aborted := true }
      else
        -- the stream is flushed when it goes out of scope
        w.write stream
    else
      let fileStr := toUtf8 (fileName context.file)
      let out := fprintfLine (toUtf8 hdr) fileStr context.line localMsg
      match type with
      | QtMsgType.QtDebugMsg =>
        { w with stderr := w.stderr ++ [StderrOp.write out, StderrOp.flush] }
      | QtMsgType.QtInfoMsg =>
        { w with stderr := w.stderr ++ [StderrOp.write out, StderrOp.flush] }
      | QtMsgType.QtWarningMsg =>
        { w with stderr := w.stderr ++ [StderrOp.write out, StderrOp.flush] }
      | QtMsgType.QtCriticalMsg =>
        { w with stderr := w.stderr ++ [StderrOp.write out, StderrOp.flush] }
      | QtMsgType.QtFatalMsg =>
        -- abort() is reached before fflush(stderr)
        { w with stderr := w.stderr ++ [StderrOp.write out], aborted := true }

/-- The sink of the release build is ready: `g_logFile` is open and the next
write lands at the end of the artifact. `initLogFile` establishes this and
every call of `VLogger` that returns keeps it. -/
def World.sinkReady (w : World) : Bool :=
  match w.g_logFile.openMode with
  | none => false
  | some OpenMode.Append => true
  | some OpenMode.WriteOnly => w.g_logFile.pos == w.logContent.length

/-! ## `main` -/

/-- What `main` reads from its surroundings. -/
structure Env where
  /-- Whether `QT_NO_DEBUG` is defined (release build). -/
  release : Bool
  /-- The result of `guard.tryRun()`. -/
  tryRun : Bool
  /-- Whether the guard's request reaches the running instance; the calls
  `openExternalFiles` and `showInstance` hand no result back to `main`. -/
  connectOk : Bool
  /-- Whether `QTextCodec::codecForName("UTF8")` is non-null. -/
  codecFound : Bool
  /-- The argument vector `argv[0], ..., argv[argc-1]` (so `argc = argv.length`)
  as the loop of lines 149-153 and `app.arguments()` read it, that is, after
  the constructor of `QApplication` has seen it. -/
  argv : List String
  /-- The collaborator `VUtils::filterFilePathsToOpen`. -/
  filterFilePathsToOpen : List String → List String
  /-- The result of `vconfig.getLogFilePath()`. -/
  logFilePath : String
  /-- The result of `VUtils::getLocale()`. -/
  locale : String
  /-- The result of `QTranslator::load(name, directory)`. -/
  translatorLoad : String → String → Bool
  /-- The result of `g_config->getThemeFile()`. -/
  themeFile : String
  /-- The result of `palette.fetchQtStyleSheet()`. -/
  styleSheet : String
  /-- The result of `app.exec()`. -/
  execResult : Int

/-- The effects of `main`, in the order of the statements that cause them. -/
inductive Event where
  | tryRun (result : Bool)
  | setCodecForLocale
  | constructApp
  | openExternalFiles (paths : List String)
  | showInstance
  | configInit
  | assignDebugLog
  | initLogFile (path : String)
  | installMessageHandler
  | getLocale
  | setDefaultLocale
  | qDebug (text : String)
  | loadTranslation (name : String) (dir : String)
  | installTranslator (name : String) (dir : String)
  | constructPalette (themeFile : String)
  | constructMainWindow
  | setStyleSheet (style : String)
  | showWindow
  | openStartupPages
  | openFiles (paths : List String)
  | promptNewNotebookIfEmpty
  | exec
  deriving DecidableEq, Repr

/-- What a run of `main` leaves behind: its effects, its return value and
the final value of `g_debugLog`. -/
structure Outcome where
  trace : List Event
  exit : Int
  g_debugLog : Bool
  deriving DecidableEq, Repr

/-- The loop of lines 149-153 over `argv[1], ..., argv[argc-1]`, acting on
`g_debugLog` and the trace. -/
def debugFlagLoop : List String → Bool × List Event → Bool × List Event
  | [], s => s
  | a :: rest, (g, t) =>
    if a = "-d" then
      debugFlagLoop rest (true, t ++ [Event.assignDebugLog])
    else
      debugFlagLoop rest (g, t)

/-- One `QTranslator` of lines 174-205: `load` is called, and the translator
is installed when the call succeeds. -/
def loadTranslator (env : Env) (name dir : String) : List Event :=
  [Event.loadTranslation name dir]
    ++ (if env.translatorLoad name dir then [Event.installTranslator name dir] else [])

/-- Source lines 118-225. -/
def main (env : Env) : Outcome :=
  let canRun := env.tryRun
  let t0 := [Event.tryRun canRun]
  let t1 := t0 ++ (if env.codecFound then [Event.setCodecForLocale] else [])
  let t2 := t1 ++ [Event.constructApp]
  let filePaths := env.filterFilePathsToOpen (env.argv.drop 1)
  if !canRun then
    if !filePaths.isEmpty then
      { trace := t2 ++ [Event.openExternalFiles filePaths], exit := 0, g_debugLog := false }
    else
      { trace := t2 ++ [Event.showInstance], exit := 0, g_debugLog := false }
  else
    let t3 := t2 ++ [Event.configInit]
    let (g, t4) :=
      if env.release then
        let (g, t) := debugFlagLoop (env.argv.drop 1) (false, t3)
        (g, t ++ [Event.initLogFile env.logFilePath])
      else
        (false, t3)
    let t5 := t4 ++ [Event.installMessageHandler]
    let locale := env.locale
    let t6 := t5 ++ [Event.getLocale]
      ++ (if locale = "zh_CN" then [Event.setDefaultLocale] else [])
    let t7 := t6 ++ [Event.qDebug "command line arguments",
                     Event.qDebug "files to open from arguments",
                     Event.qDebug "openSSL"]
    let t8 := t7
      ++ loadTranslator env ("widgets_" ++ locale) ":/translations"
      ++ loadTranslator env ("qdialogbuttonbox_" ++ locale) ":/translations"
      ++ loadTranslator env ("qwebengine_" ++ locale) ":/translations"
      ++ loadTranslator env ("qt_" ++ locale) ":/translations"
      ++ loadTranslator env ("qt_" ++ locale) "translations"
      ++ loadTranslator env ("vnote_" ++ locale) ":/translations"
    let t9 := t8 ++ [Event.constructPalette env.themeFile, Event.constructMainWindow]
    let style := env.styleSheet
    let t10 := t9 ++ (if !style.isEmpty then [Event.setStyleSheet style] else [])
    let t11 := t10 ++ [Event.showWindow, Event.openStartupPages, Event.openFiles filePaths,
                       Event.promptNewNotebookIfEmpty, Event.exec]
    { trace := t11, exit := env.execResult, g_debugLog := g }

/-! ## Recognisers for events -/

def Event.isTryRun : Event → Bool
  | Event.tryRun _ => true
  | _ => false

def Event.isOpenExternalFiles : Event → Bool
  | Event.openExternalFiles _ => true
  | _ => false

def Event.isShowInstance : Event → Bool
  | Event.showInstance => true
  | _ => false

def Event.isInitLogFile : Event → Bool
  | Event.initLogFile _ => true
  | _ => false

def Event.isOpenFiles : Event → Bool
  | Event.openFiles _ => true
  | _ => false

def Event.isQDebug : Event → Bool
  | Event.qDebug _ => true
  | _ => false

/-- An example environment: release build, English locale, no translation found. -/
def sampleEnv (tryRun connectOk : Bool) (argv : List String) : Env :=
  { release := true
    tryRun := tryRun
    connectOk := connectOk
    codecFound := true
    argv := argv
    filterFilePathsToOpen := fun l => l.filter (fun a => a != "-d")
    logFilePath := "vnote.log"
    locale := "en_US"
    translatorLoad := fun _ _ => false
    themeFile := "v_pure.palette"
    styleSheet := ""
    execResult := 0 }

/-- The severity names as the specification lists them:
Debug | Info | Warning | Critical | Fatal. -/
def severityName (type : QtMsgType) : String :=
  match type with
  | QtMsgType.QtDebugMsg => "Debug"
  | QtMsgType.QtInfoMsg => "Info"
  | QtMsgType.QtWarningMsg => "Warning"
  | QtMsgType.QtCriticalMsg => "Critical"
  | QtMsgType.QtFatalMsg => "Fatal"

/-- A state with a log artifact of `n` zero bytes at every path, before `initLogFile`. -/
def worldWithLog (n : Nat) : World :=
  World.start (fun _ => some (List.replicate n 0))

/-- A release-build state in mid-session whose log artifact has already
reached the cap: 5242880 bytes, opened for append. -/
def overCapWorld : World :=
  { g_debugLog := false
    g_logFile := { fileName := "vnote.log", openMode := some OpenMode.Append, pos := 5242880 }
    disk := fun _ => some (List.replicate 5242880 0)
    stderr := []
    aborted := false }

/-- A release-build state right after `initLogFile` on a host without a log artifact. -/
def freshLogWorld : World :=
  initLogFile (World.start (fun _ => none)) "vnote.log"

/-- Effects of lines 120-131 when `tryRun` returned true. -/
def startSegment (env : Env) : List Event :=
  [Event.tryRun true] ++ (if env.codecFound then [Event.setCodecForLocale] else [])
    ++ [Event.constructApp]

/-- Effects of lines 148-156: present in the release build only. -/
def sinkSegment (env : Env) : List Event :=
  if env.release then
    List.replicate ((env.argv.drop 1).count "-d") Event.assignDebugLog
      ++ [Event.initLogFile env.logFilePath]
  else []

/-- Effects of lines 160-205. -/
def localeSegment (env : Env) : List Event :=
  [Event.getLocale] ++ (if env.locale = "zh_CN" then [Event.setDefaultLocale] else [])
    ++ [Event.qDebug "command line arguments",
        Event.qDebug "files to open from arguments",
        Event.qDebug "openSSL"]
    ++ loadTranslator env ("widgets_" ++ env.locale) ":/translations"
    ++ loadTranslator env ("qdialogbuttonbox_" ++ env.locale) ":/translations"
    ++ loadTranslator env ("qwebengine_" ++ env.locale) ":/translations"
    ++ loadTranslator env ("qt_" ++ env.locale) ":/translations"
    ++ loadTranslator env ("qt_" ++ env.locale) "translations"
    ++ loadTranslator env ("vnote_" ++ env.locale) ":/translations"

/-- Effects of lines 207-224. -/
def windowSegment (env : Env) : List Event :=
  [Event.constructPalette env.themeFile, Event.constructMainWindow]
    ++ (if !env.styleSheet.isEmpty then [Event.setStyleSheet env.styleSheet] else [])
    ++ [Event.showWindow, Event.openStartupPages,
        Event.openFiles (env.filterFilePathsToOpen (env.argv.drop 1)),
        Event.promptNewNotebookIfEmpty, Event.exec]

/-! ## Lemmas on strings and the file model -/

theorem toUtf8_append (a b : String) : toUtf8 (a ++ b) = toUtf8 a ++ toUtf8 b := by
  simp [toUtf8, String.data_append, List.flatMap_append]

theorem header_eq_name_colon (type : QtMsgType) :
    header type = severityName type ++ ":" := by
  cases type <;> rfl

theorem cstr_of_no_zero (b : Bytes) (h : (0 : UInt8) ∉ b) : cstr b = b := by
  unfold cstr
  rw [List.takeWhile_eq_self_iff]
  intro x hx
  have : x ≠ 0 := fun e => h (e ▸ hx)
  simpa using this

theorem cstr_header (type : QtMsgType) : cstr (toUtf8 (header type)) = toUtf8 (header type) := by
  cases type <;> decide

theorem logContent_write (w : World) (b : Bytes) (h : w.sinkReady = true) :
    (w.write b).logContent = w.logContent ++ b := by
  unfold World.sinkReady at h
  unfold World.write
  split <;> rename_i hm
  · simp [hm] at h
  · simp [World.logContent, Disk.set]
  · simp [hm] at h
    simp [World.logContent, Disk.set] at h ⊢
    rw [h]
    simp [World.logContent]

theorem sinkReady_write (w : World) (b : Bytes) (h : w.sinkReady = true) :
    (w.write b).sinkReady = true := by
  unfold World.sinkReady at h
  unfold World.write
  split <;> rename_i hm
  · simp [hm] at h
  · simp [World.sinkReady, hm]
  · simp [hm] at h
    simp [World.sinkReady, hm, World.logContent, Disk.set] at h ⊢
    rw [h]
    simp

theorem aborted_write (w : World) (b : Bytes) : (w.write b).aborted = w.aborted := by
  unfold World.write
  split <;> rfl

theorem fileName_write (w : World) (b : Bytes) :
    (w.write b).g_logFile.fileName = w.g_logFile.fileName := by
  unfold World.write
  split <;> rfl

theorem sinkReady_initLogFile (w : World) (p_file : String) :
    (initLogFile w p_file).sinkReady = true := by
  unfold initLogFile
  simp only []
  split <;>
    simp [World.open, World.setFileName, World.sinkReady, World.logContent, Disk.set, World.size]

theorem initLogFile_fileName (w : World) (p_file : String) :
    (initLogFile w p_file).g_logFile.fileName = p_file := by
  unfold initLogFile
  simp only []
  split <;> simp [World.open, World.setFileName]

theorem initLogFile_debugLog (w : World) (p_file : String) :
    (initLogFile w p_file).g_debugLog = w.g_debugLog := by
  unfold initLogFile
  simp only []
  split <;> simp [World.open, World.setFileName]

/-- What `VLogger` leaves in the log artifact in the release build when the sink is ready. -/
theorem VLogger_release_content (w : World) (type : QtMsgType)
    (context : QMessageLogContext) (msg : String) (h : w.sinkReady = true) :
    (VLogger true w type context msg).logContent
      = if type = QtMsgType.QtDebugMsg ∧ w.g_debugLog = false then w.logContent
        else w.logContent ++ (toUtf8 (header type) ++ toUtf8 msg ++ toUtf8 "\n") := by
  unfold VLogger
  by_cases hd : type = QtMsgType.QtDebugMsg ∧ w.g_debugLog = false
  · simp [hd]
  · have hc : (true && (!w.g_debugLog && type == QtMsgType.QtDebugMsg)) = false := by
      cases hg : w.g_debugLog <;> cases type <;> simp_all
    rw [if_neg hd, hc]
    simp only [Bool.false_eq_true, if_false, if_true]
    split
    · have := logContent_write w (toUtf8 (header type) ++ toUtf8 msg ++ toUtf8 "\n") h
      simpa [World.logContent, World.close, fileName_write] using this
    · exact logContent_write w _ h

theorem disk_write (w : World) (b : Bytes) (h : w.sinkReady = true) :
    (w.write b).disk w.g_logFile.fileName = some (w.logContent ++ b) := by
  unfold World.sinkReady at h
  unfold World.write
  split <;> rename_i hm
  · simp [hm] at h
  · simp [Disk.set]
  · simp [hm] at h
    simp [Disk.set]
    rw [h]
    simp

theorem VLogger_release_disk (w : World) (type : QtMsgType)
    (context : QMessageLogContext) (msg : String) (h : w.sinkReady = true)
    (hkeep : type ≠ QtMsgType.QtDebugMsg ∨ w.g_debugLog = true) :
    (VLogger true w type context msg).disk w.g_logFile.fileName
      = some (w.logContent ++ (toUtf8 (header type) ++ toUtf8 msg ++ toUtf8 "\n")) := by
  unfold VLogger
  have hc : (true && (!w.g_debugLog && type == QtMsgType.QtDebugMsg)) = false := by
    cases hg : w.g_debugLog <;> cases type <;> simp_all
  rw [hc]
  simp only [Bool.false_eq_true, if_false, if_true]
  split
  · simpa [World.close] using disk_write w _ h
  · exact disk_write w _ h

theorem initLogFile_truncates (w : World) (p_file : String) (c : Bytes)
    (h : w.disk p_file = some c) (hc : 5242880 ≤ c.length) :
    initLogFile w p_file
      = { w with
          g_logFile := { fileName := p_file, openMode := some OpenMode.WriteOnly, pos := 0 }
          disk := w.disk.set p_file [] } := by
  unfold initLogFile
  have hs : (w.setFileName p_file).size ≥ MAX_LOG_SIZE := by
    simp [World.size, World.logContent, World.setFileName, h, MAX_LOG_SIZE]
    exact hc
  simp only [hs, if_true]
  simp [World.open, World.setFileName]

theorem initLogFile_appends (w : World) (p_file : String) (c : Bytes)
    (h : w.disk p_file = some c) (hc : c.length < 5242880) :
    initLogFile w p_file
      = { w with
          g_logFile := { fileName := p_file, openMode := some OpenMode.Append, pos := c.length }
          disk := w.disk.set p_file c } := by
  unfold initLogFile
  have hs : ¬ (w.setFileName p_file).size ≥ MAX_LOG_SIZE := by
    simp [World.size, World.logContent, World.setFileName, h, MAX_LOG_SIZE]
    exact hc
  simp only [hs, if_false]
  simp [World.open, World.setFileName, World.size, World.logContent, h]

/-- C3. Rotation at sink initialisation: for an existing log artifact with
content `c`, `initLogFile` leaves the artifact empty, opened for overwrite at
offset 0, when `c` has at least 5242880 bytes, and leaves it exactly `c`,
opened for append at offset `c.length`, when it has fewer; the first record
written afterwards therefore forms the whole artifact in the first case and
follows `c` in the second. -/
theorem initLogFile_rotation (w : World) (p_file : String) (c : Bytes)
    (h : w.disk p_file = some c) :
    (5242880 ≤ c.length →
        (initLogFile w p_file).disk p_file = some []
        ∧ (initLogFile w p_file).g_logFile
            = { fileName := p_file, openMode := some OpenMode.WriteOnly, pos := 0 }
        ∧ ∀ (type : QtMsgType) (context : QMessageLogContext) (msg : String),
            (type ≠ QtMsgType.QtDebugMsg ∨ w.g_debugLog = true) →
            (VLogger true (initLogFile w p_file) type context msg).disk p_file
              = some (toUtf8 (header type) ++ toUtf8 msg ++ toUtf8 "\n"))
    ∧ (c.length < 5242880 →
        (initLogFile w p_file).disk p_file = some c
        ∧ (initLogFile w p_file).g_logFile
            = { fileName := p_file, openMode := some OpenMode.Append, pos := c.length }
        ∧ ∀ (type : QtMsgType) (context : QMessageLogContext) (msg : String),
            (type ≠ QtMsgType.QtDebugMsg ∨ w.g_debugLog = true) →
            (VLogger true (initLogFile w p_file) type context msg).disk p_file
              = some (c ++ (toUtf8 (header type) ++ toUtf8 msg ++ toUtf8 "\n"))) := by
  refine ⟨fun hc => ?_, fun hc => ?_⟩
  · have e := initLogFile_truncates w p_file c h hc
    refine ⟨by simp [e, Disk.set], by simp [e], ?_⟩
    intro type context msg hkeep
    have hr := sinkReady_initLogFile w p_file
    have hk : type ≠ QtMsgType.QtDebugMsg ∨ (initLogFile w p_file).g_debugLog = true := by
      rw [initLogFile_debugLog]; exact hkeep
    have := VLogger_release_disk (initLogFile w p_file) type context msg hr hk
    rw [initLogFile_fileName] at this
    rw [this]
    simp [e, World.logContent, Disk.set]
  · have e := initLogFile_appends w p_file c h hc
    refine ⟨by simp [e, Disk.set], by simp [e], ?_⟩
    intro type context msg hkeep
    have hr := sinkReady_initLogFile w p_file
    have hk : type ≠ QtMsgType.QtDebugMsg ∨ (initLogFile w p_file).g_debugLog = true := by
      rw [initLogFile_debugLog]; exact hkeep
    have := VLogger_release_disk (initLogFile w p_file) type context msg hr hk
    rw [initLogFile_fileName] at this
    rw [this]
    simp [e, World.logContent, Disk.set]

/-- Witness for C3 at the boundary: an artifact of 5242880 bytes is truncated,
one of 5242879 bytes is kept and appended to. -/
theorem initLogFile_rotation_witness :
    ((initLogFile (worldWithLog 5242880) "vnote.log").disk "vnote.log" = some []
      ∧ (initLogFile (worldWithLog 5242880) "vnote.log").g_logFile
          = { fileName := "vnote.log", openMode := some OpenMode.WriteOnly, pos := 0 })
    ∧ ((initLogFile (worldWithLog 5242879) "vnote.log").disk "vnote.log"
          = some (List.replicate 5242879 0)
      ∧ (initLogFile (worldWithLog 5242879) "vnote.log").g_logFile
          = { fileName := "vnote.log", openMode := some OpenMode.Append, pos := 5242879 }) := by
  have t := (initLogFile_rotation (worldWithLog 5242880) "vnote.log"
    (List.replicate 5242880 0) rfl).1 (by rw [List.length_replicate])
  have a := (initLogFile_rotation (worldWithLog 5242879) "vnote.log"
    (List.replicate 5242879 0) rfl).2 (by rw [List.length_replicate]; decide)
  refine ⟨⟨t.1, t.2.1⟩, ⟨a.1, ?_⟩⟩
  have := a.2.1
  rw [List.length_replicate] at this
  exact this

/-- C4. Release-build routing: with the sink ready, a Debug record with the
flag off leaves the state (and so the log content) exactly as it was; every
other record leaves the log content as the old content followed by the one
line of that record, whatever the size of the old content; and a record other
than Fatal leaves the sink ready for the next record. -/
theorem VLogger_release_routing (w : World) (type : QtMsgType)
    (context : QMessageLogContext) (msg : String) (h : w.sinkReady = true) :
    (type = QtMsgType.QtDebugMsg ∧ w.g_debugLog = false →
        VLogger true w type context msg = w)
    ∧ (¬ (type = QtMsgType.QtDebugMsg ∧ w.g_debugLog = false) →
        (VLogger true w type context msg).logContent
          = w.logContent ++ (toUtf8 (header type) ++ toUtf8 msg ++ toUtf8 "\n"))
    ∧ (type ≠ QtMsgType.QtFatalMsg →
        (VLogger true w type context msg).sinkReady = true) := by
  refine ⟨fun hd => ?_, fun hd => ?_, fun hf => ?_⟩
  · unfold VLogger
    simp [hd.1, hd.2]
  · rw [VLogger_release_content w type context msg h, if_neg hd]
  · unfold VLogger
    split
    · exact h
    · simp only [if_true]
      have hb : (type == QtMsgType.QtFatalMsg) = false := by
        cases type <;> simp_all
      rw [hb]
      simp only [Bool.false_eq_true, if_false]
      exact sinkReady_write w _ h

/-- Witness for C4: a Warning record logged on an artifact that is already at
the cap is appended after the 5242880 bytes present. -/
theorem VLogger_release_routing_witness :
    overCapWorld.sinkReady = true
    ∧ (VLogger true overCapWorld QtMsgType.QtWarningMsg ⟨"", 0⟩ "w").logContent
        = overCapWorld.logContent
          ++ (toUtf8 (header QtMsgType.QtWarningMsg) ++ toUtf8 "w" ++ toUtf8 "\n") :=
  ⟨rfl, (VLogger_release_routing overCapWorld QtMsgType.QtWarningMsg ⟨"", 0⟩ "w" rfl).2.1
    (by decide)⟩

/-- What `VLogger` does about termination in each build: a Fatal record
aborts the process; in the release build the log file is closed first and,
when the sink was ready, holds the old content followed by the record; in the
debug build the record is written to `stderr` first. A record of any other
severity leaves the process running. -/
theorem VLogger_abort_paths (release : Bool) (w : World) (type : QtMsgType)
    (context : QMessageLogContext) (msg : String) :
    (type = QtMsgType.QtFatalMsg →
        (VLogger release w type context msg).aborted = true
        ∧ (release = true →
            (VLogger release w type context msg).g_logFile.openMode = none
            ∧ (w.sinkReady = true →
                (VLogger release w type context msg).logContent
                  = w.logContent ++ (toUtf8 (header type) ++ toUtf8 msg ++ toUtf8 "\n")))
        ∧ (release = false →
            ∃ rest, (VLogger release w type context msg).stderr
              = w.stderr ++ StderrOp.write
                  (fprintfLine (toUtf8 (header type)) (toUtf8 (fileName context.file))
                    context.line (toUtf8 msg)) :: rest))
    ∧ (type ≠ QtMsgType.QtFatalMsg →
        (VLogger release w type context msg).aborted = w.aborted) := by
  refine ⟨fun hf => ⟨?_, fun hr => ⟨?_, fun hs => ?_⟩, fun hr => ?_⟩, fun hf => ?_⟩
  · subst hf
    cases release <;> simp [VLogger]
  · subst hf; subst hr
    simp [VLogger, World.close]
  · subst hf; subst hr
    rw [VLogger_release_content w _ context msg hs]
    simp
  · subst hf; subst hr
    exact ⟨[], by simp [VLogger]⟩
  · cases release <;> cases type <;> simp_all [VLogger, aborted_write]
    split <;> simp [aborted_write]

/-- C5. The code at the failing input: in the debug build a Fatal record
from line 1 of main.cpp with message "x" is written to `stderr` and the
process is aborted with no flush of the console stream in between, because
`abort()` stands inside the `switch`, before `fflush(stderr)`. The sibling
paths do what this one misses: the same record with severity Debug, Info,
Warning or Critical is written and then flushed, and in the release build
the Fatal record reaches the log file, which is closed before the abort. -/
theorem VLogger_debug_fatal_no_flush :
    (VLogger false (World.start (fun _ => none)) QtMsgType.QtFatalMsg ⟨"main.cpp", 1⟩ "x").aborted
        = true
    ∧ (VLogger false (World.start (fun _ => none)) QtMsgType.QtFatalMsg ⟨"main.cpp", 1⟩ "x").stderr
        = [StderrOp.write (toUtf8 "Fatal:(main.cpp:1) x\n")]
    ∧ StderrOp.flush ∉
        (VLogger false (World.start (fun _ => none)) QtMsgType.QtFatalMsg
          ⟨"main.cpp", 1⟩ "x").stderr
    ∧ (VLogger false (World.start (fun _ => none)) QtMsgType.QtDebugMsg ⟨"main.cpp", 1⟩ "x").stderr
        = [StderrOp.write (toUtf8 "Debug:(main.cpp:1) x\n"), StderrOp.flush]
    ∧ (VLogger false (World.start (fun _ => none)) QtMsgType.QtInfoMsg ⟨"main.cpp", 1⟩ "x").stderr
        = [StderrOp.write (toUtf8 "Info:(main.cpp:1) x\n"), StderrOp.flush]
    ∧ (VLogger false (World.start (fun _ => none)) QtMsgType.QtWarningMsg
        ⟨"main.cpp", 1⟩ "x").stderr
        = [StderrOp.write (toUtf8 "Warning:(main.cpp:1) x\n"), StderrOp.flush]
    ∧ (VLogger false (World.start (fun _ => none)) QtMsgType.QtCriticalMsg
        ⟨"main.cpp", 1⟩ "x").stderr
        = [StderrOp.write (toUtf8 "Critical:(main.cpp:1) x\n"), StderrOp.flush]
    ∧ (VLogger true freshLogWorld QtMsgType.QtFatalMsg ⟨"main.cpp", 1⟩ "x").logContent
        = toUtf8 "Fatal:x\n"
    ∧ (VLogger true freshLogWorld QtMsgType.QtFatalMsg ⟨"main.cpp", 1⟩ "x").g_logFile.openMode
        = none
    ∧ (VLogger true freshLogWorld QtMsgType.QtFatalMsg ⟨"main.cpp", 1⟩ "x").aborted = true := by
  decide

/-- C6 as stated fails: an Info record with message "x" is appended as
"Info:x" and a line feed, with no space after the colon. -/
theorem VLogger_release_no_space :
    (VLogger true freshLogWorld QtMsgType.QtInfoMsg ⟨"", 0⟩ "x").logContent
        = toUtf8 "Info:x\n"
    ∧ (VLogger true freshLogWorld QtMsgType.QtInfoMsg ⟨"", 0⟩ "x").logContent
        ≠ toUtf8 "Info: x\n" := by
  decide

/-- C6, amended. Every record that `VLogger` writes to the log file in the
release build is appended as the UTF-8 text of the severity name, a colon,
the message, and one line feed, with nothing between the colon and the message. -/
theorem VLogger_release_format (w : World) (type : QtMsgType)
    (context : QMessageLogContext) (msg : String) (h : w.sinkReady = true)
    (hkeep : type ≠ QtMsgType.QtDebugMsg ∨ w.g_debugLog = true) :
    (VLogger true w type context msg).logContent
      = w.logContent ++ toUtf8 (severityName type ++ ":" ++ msg ++ "\n") := by
  have hd : ¬ (type = QtMsgType.QtDebugMsg ∧ w.g_debugLog = false) := by
    intro hd
    rcases hkeep with hk | hk
    · exact hk hd.1
    · rw [hd.2] at hk
      exact Bool.false_ne_true hk
  rw [VLogger_release_content w type context msg h, if_neg hd, header_eq_name_colon]
  simp only [toUtf8_append]

/-- Witness for C6: a Critical record on a fresh sink. -/
theorem VLogger_release_format_witness :
    freshLogWorld.sinkReady = true
    ∧ (VLogger true freshLogWorld QtMsgType.QtCriticalMsg ⟨"", 0⟩ "disk full").logContent
        = freshLogWorld.logContent
          ++ toUtf8 (severityName QtMsgType.QtCriticalMsg ++ ":" ++ "disk full" ++ "\n") :=
  ⟨by decide,
   VLogger_release_format freshLogWorld QtMsgType.QtCriticalMsg ⟨"", 0⟩ "disk full"
    (by decide) (by decide)⟩

/-- C7 as stated fails: in the debug build a Debug record from line 12 of
/src/main.cpp with message "hi" is written as "Debug:(main.cpp:12) hi", with a
colon between the severity name and the bracket. -/
theorem VLogger_debug_colon :
    (VLogger false (World.start (fun _ => none)) QtMsgType.QtDebugMsg
        ⟨"/src/main.cpp", 12⟩ "hi").stderr
      = [StderrOp.write (toUtf8 "Debug:(main.cpp:12) hi\n"), StderrOp.flush]
    ∧ (VLogger false (World.start (fun _ => none)) QtMsgType.QtDebugMsg
        ⟨"/src/main.cpp", 12⟩ "hi").stderr
      ≠ [StderrOp.write (toUtf8 "Debug(main.cpp:12) hi\n"), StderrOp.flush] := by
  decide

/-- C7, amended. In the debug build, for each of the five severities and for
either value of the flag, exactly one line is written to `stderr` and neither
the file system nor `g_logFile` changes. The line is the severity name and a
colon, an opening bracket, the short file name, a colon, the line number as
`%u` prints it, a closing bracket and a space, the message as `%s` prints it,
and a line feed. When file name and message hold no zero byte and the line
number is not negative, that is the UTF-8 text of
"<Severity>:(<file>:<line>) <message>" and a line feed. -/
theorem VLogger_debug_format (w : World) (type : QtMsgType)
    (context : QMessageLogContext) (msg : String) :
    (VLogger false w type context msg).stderr
        = w.stderr
          ++ StderrOp.write
              (toUtf8 (severityName type ++ ":") ++ toUtf8 "("
                ++ cstr (toUtf8 (fileName context.file)) ++ toUtf8 ":"
                ++ fmtU context.line ++ toUtf8 ") " ++ cstr (toUtf8 msg) ++ toUtf8 "\n")
            :: (if type = QtMsgType.QtFatalMsg then [] else [StderrOp.flush])
    ∧ (VLogger false w type context msg).disk = w.disk
    ∧ (VLogger false w type context msg).g_logFile = w.g_logFile
    ∧ ((0 : UInt8) ∉ toUtf8 (fileName context.file) → (0 : UInt8) ∉ toUtf8 msg →
        0 ≤ context.line → context.line < 4294967296 →
        toUtf8 (severityName type ++ ":") ++ toUtf8 "("
            ++ cstr (toUtf8 (fileName context.file)) ++ toUtf8 ":"
            ++ fmtU context.line ++ toUtf8 ") " ++ cstr (toUtf8 msg) ++ toUtf8 "\n"
          = toUtf8 (severityName type ++ ":" ++ "(" ++ fileName context.file ++ ":"
              ++ Nat.repr context.line.toNat ++ ") " ++ msg ++ "\n")) := by
  refine ⟨?_, ?_, ?_, ?_⟩
  · have hh := cstr_header type
    rw [header_eq_name_colon] at hh
    cases type <;> simp [VLogger, fprintfLine, header_eq_name_colon, hh]
  · cases type <;> simp [VLogger]
  · cases type <;> simp [VLogger]
  · intro hf hm h0 h1
    rw [cstr_of_no_zero _ hf, cstr_of_no_zero _ hm]
    have : context.line % 4294967296 = context.line := Int.emod_eq_of_lt h0 h1
    simp [fmtU, this, toUtf8_append]

/-- Witness for C7: an Info record from line 7 of gui/window.cpp. -/
theorem VLogger_debug_format_witness :
    toUtf8 (severityName QtMsgType.QtInfoMsg ++ ":") ++ toUtf8 "("
        ++ cstr (toUtf8 (fileName "gui/window.cpp")) ++ toUtf8 ":"
        ++ fmtU 7 ++ toUtf8 ") " ++ cstr (toUtf8 "ready") ++ toUtf8 "\n"
      = toUtf8 (severityName QtMsgType.QtInfoMsg ++ ":" ++ "(" ++ fileName "gui/window.cpp"
          ++ ":" ++ Nat.repr (7 : Int).toNat ++ ") " ++ "ready" ++ "\n") :=
  (VLogger_debug_format (World.start (fun _ => none)) QtMsgType.QtInfoMsg
    ⟨"gui/window.cpp", 7⟩ "ready").2.2.2 (by decide) (by decide) (by decide) (by decide)

/-! ## Theorems on `main` -/

/-- C1. Secondary fast path: when `tryRun` returned false, `main` makes exactly
one call of `openExternalFiles` with the filtered list (and none of
`showInstance`) when that list is not empty, exactly one call of `showInstance`
(and none of `openExternalFiles`) when it is empty; that call is its last
effect, the return value is 0, and configuration initialisation, opening of
the log file, installation of the handler and construction of the main window
do not occur. -/
theorem main_secondary_fast_path (env : Env) (h : env.tryRun = false) :
    (env.filterFilePathsToOpen (env.argv.drop 1) ≠ [] →
        (main env).trace.count (Event.openExternalFiles
            (env.filterFilePathsToOpen (env.argv.drop 1))) = 1
        ∧ (main env).trace.countP Event.isOpenExternalFiles = 1
        ∧ (main env).trace.countP Event.isShowInstance = 0
        ∧ (main env).trace.getLast? = some (Event.openExternalFiles
            (env.filterFilePathsToOpen (env.argv.drop 1))))
    ∧ (env.filterFilePathsToOpen (env.argv.drop 1) = [] →
        (main env).trace.countP Event.isShowInstance = 1
        ∧ (main env).trace.countP Event.isOpenExternalFiles = 0
        ∧ (main env).trace.getLast? = some Event.showInstance)
    ∧ (main env).exit = 0
    ∧ Event.configInit ∉ (main env).trace
    ∧ (main env).trace.countP Event.isInitLogFile = 0
    ∧ Event.installMessageHandler ∉ (main env).trace
    ∧ Event.constructMainWindow ∉ (main env).trace
    ∧ Event.exec ∉ (main env).trace := by
  cases hp : env.filterFilePathsToOpen (env.argv.drop 1) with
  | nil =>
    rw [List.drop_one] at hp
    cases hc : env.codecFound <;>
      simp [main, h, hp, hc, List.countP_cons, Event.isShowInstance,
        Event.isOpenExternalFiles, Event.isInitLogFile]
  | cons a l =>
    rw [List.drop_one] at hp
    cases hc : env.codecFound <;>
      simp [main, h, hp, hc, List.countP_cons, List.count_cons, Event.isShowInstance,
        Event.isOpenExternalFiles, Event.isInitLogFile]

/-- Witness for C1: a second launch with one file, and one with none. -/
theorem main_secondary_fast_path_witness :
    (main (sampleEnv false true ["vnote", "a.md"])).trace.getLast?
        = some (Event.openExternalFiles ["a.md"])
    ∧ (main (sampleEnv false true ["vnote"])).trace.getLast? = some Event.showInstance
    ∧ (main (sampleEnv false true ["vnote"])).exit = 0 :=
  ⟨((main_secondary_fast_path (sampleEnv false true ["vnote", "a.md"]) rfl).1
      (by decide)).2.2.2,
   ((main_secondary_fast_path (sampleEnv false true ["vnote"]) rfl).2.1 (by decide)).2.2,
   (main_secondary_fast_path (sampleEnv false true ["vnote"]) rfl).2.2.1⟩

/-- C2 as stated fails: a second launch asking for a.md whose request cannot
reach the running instance calls `tryRun` once, makes the forwarding call and
returns 0; no window is built and `openFiles` is not called. -/
theorem main_no_self_promotion :
    (sampleEnv false false ["vnote", "a.md"]).tryRun = false
    ∧ (sampleEnv false false ["vnote", "a.md"]).connectOk = false
    ∧ main (sampleEnv false false ["vnote", "a.md"])
        = { trace := [Event.tryRun false, Event.setCodecForLocale, Event.constructApp,
                      Event.openExternalFiles ["a.md"]]
            exit := 0
            g_debugLog := false }
    ∧ (main (sampleEnv false false ["vnote", "a.md"])).trace.countP Event.isTryRun = 1
    ∧ (main (sampleEnv false false ["vnote", "a.md"])).trace.countP Event.isOpenFiles = 0 := by
  decide

/-- C2, amended. When `tryRun` returned false, the run of `main` is the same
whether or not the guard's connection can be established: `tryRun` is called
once, the forwarding call is the last effect, the return value is 0, no
window is constructed and `openFiles` is not called. -/
theorem main_forward_is_final (env : Env) (h : env.tryRun = false) :
    (∀ b : Bool, main { env with connectOk := b } = main env)
    ∧ (main env).trace.countP Event.isTryRun = 1
    ∧ ((main env).trace.getLast? = some (Event.openExternalFiles
          (env.filterFilePathsToOpen (env.argv.drop 1)))
        ∨ (main env).trace.getLast? = some Event.showInstance)
    ∧ (main env).exit = 0
    ∧ Event.constructMainWindow ∉ (main env).trace
    ∧ (main env).trace.countP Event.isOpenFiles = 0 := by
  refine ⟨fun b => rfl, ?_⟩
  cases hp : env.filterFilePathsToOpen (env.argv.drop 1) with
  | nil =>
    rw [List.drop_one] at hp
    cases hc : env.codecFound <;>
      simp [main, h, hp, hc, List.countP_cons, Event.isTryRun, Event.isOpenFiles]
  | cons a l =>
    rw [List.drop_one] at hp
    cases hc : env.codecFound <;>
      simp [main, h, hp, hc, List.countP_cons, Event.isTryRun, Event.isOpenFiles]

/-- Witness for C2: a second launch without files whose request cannot be delivered. -/
theorem main_forward_is_final_witness :
    (sampleEnv false false ["vnote"]).tryRun = false
    ∧ (main (sampleEnv false false ["vnote"])).trace.countP Event.isTryRun = 1
    ∧ (main (sampleEnv false false ["vnote"])).exit = 0 :=
  ⟨rfl, (main_forward_is_final (sampleEnv false false ["vnote"]) rfl).2.1,
   (main_forward_is_final (sampleEnv false false ["vnote"]) rfl).2.2.2.1⟩

theorem debugFlagLoop_eq (l : List String) (g : Bool) (t : List Event) :
    debugFlagLoop l (g, t)
      = (g || decide ("-d" ∈ l), t ++ List.replicate (l.count "-d") Event.assignDebugLog) := by
  induction l generalizing g t with
  | nil => simp [debugFlagLoop]
  | cons a rest ih =>
    unfold debugFlagLoop
    by_cases ha : a = "-d"
    · subst ha
      rw [if_pos rfl, ih]
      simp [List.replicate_succ, List.append_assoc]
    · rw [if_neg ha, ih]
      have hne : ("-d" = a) = False := by
        simp only [eq_iff_iff, iff_false]
        exact fun e => ha e.symm
      simp [List.count_cons, ha, hne]

theorem mem_drop_one_iff (argv : List String) :
    "-d" ∈ argv.drop 1 ↔ ∃ i, 1 ≤ i ∧ i < argv.length ∧ argv[i]? = some "-d" := by
  rw [List.mem_iff_getElem?]
  constructor
  · rintro ⟨n, hn⟩
    rw [List.getElem?_drop] at hn
    refine ⟨1 + n, by omega, ?_, hn⟩
    exact (List.getElem?_eq_some.mp hn).1
  · rintro ⟨i, h1, _, hi⟩
    refine ⟨i - 1, ?_⟩
    rw [List.getElem?_drop]
    have : 1 + (i - 1) = i := by omega
    rw [this]
    exact hi

/-- The run of `main` when `tryRun` returned true, as one list of effects. -/
theorem main_primary (env : Env) (ht : env.tryRun = true) :
    main env
      = { trace := startSegment env ++ [Event.configInit] ++ sinkSegment env
            ++ [Event.installMessageHandler] ++ localeSegment env ++ windowSegment env
          exit := env.execResult
          g_debugLog := env.release && decide ("-d" ∈ env.argv.drop 1) } := by
  unfold main startSegment sinkSegment localeSegment windowSegment
  simp only [ht, Bool.not_true, Bool.false_eq_true, if_false, debugFlagLoop_eq]
  cases hr : env.release
  · simp only [Bool.false_eq_true, if_false, Bool.false_and, List.append_assoc,
      List.nil_append]
  · simp only [if_true, Bool.false_or, Bool.true_and, List.append_assoc]

theorem forall_mem_loadTranslator (env : Env) (name dir : String) (P : Event → Prop) :
    (∀ e ∈ loadTranslator env name dir, P e)
      ↔ (P (Event.loadTranslation name dir)
          ∧ (env.translatorLoad name dir = true → P (Event.installTranslator name dir))) := by
  unfold loadTranslator
  split <;> simp_all

theorem forall_mem_ite_singleton {α : Type} (c : Prop) [Decidable c] (x : α) (P : α → Prop) :
    (∀ e ∈ (if c then [x] else []), P e) ↔ (c → P x) := by
  split <;> simp_all

theorem startSegment_mem (env : Env) :
    ∀ e ∈ startSegment env,
      e = Event.tryRun true ∨ e = Event.setCodecForLocale ∨ e = Event.constructApp := by
  unfold startSegment
  simp only [List.forall_mem_append, forall_mem_ite_singleton]
  simp

theorem localeSegment_mem (env : Env) :
    ∀ e ∈ localeSegment env,
      e = Event.getLocale ∨ e = Event.setDefaultLocale ∨ e.isQDebug = true
        ∨ (∃ name dir, e = Event.loadTranslation name dir)
        ∨ ∃ name dir, e = Event.installTranslator name dir := by
  unfold localeSegment
  simp only [List.forall_mem_append, forall_mem_ite_singleton, forall_mem_loadTranslator]
  simp [Event.isQDebug]

theorem windowSegment_mem (env : Env) :
    ∀ e ∈ windowSegment env,
      e = Event.constructPalette env.themeFile ∨ e = Event.constructMainWindow
        ∨ e = Event.setStyleSheet env.styleSheet ∨ e = Event.showWindow
        ∨ e = Event.openStartupPages
        ∨ e = Event.openFiles (env.filterFilePathsToOpen (env.argv.drop 1))
        ∨ e = Event.promptNewNotebookIfEmpty ∨ e = Event.exec := by
  unfold windowSegment
  simp only [List.forall_mem_append, forall_mem_ite_singleton]
  simp

/-- C8. Debug-log flag in the release build, primary path: after start-up
`g_debugLog` is true exactly when some `argv[i]` with `1 ≤ i < argc` is the
string "-d"; whatever the arguments are the launch goes on to `exec`; and
every assignment to the flag, one for each such argument, comes before
`initLogFile` and the installation of the handler. -/
theorem main_debugLog_flag (env : Env) (hr : env.release = true) (ht : env.tryRun = true) :
    ((main env).g_debugLog = true
        ↔ ∃ i, 1 ≤ i ∧ i < env.argv.length ∧ env.argv[i]? = some "-d")
    ∧ (main env).trace.getLast? = some Event.exec
    ∧ (main env).exit = env.execResult
    ∧ ∃ pre post,
        (main env).trace
          = pre ++ Event.initLogFile env.logFilePath :: Event.installMessageHandler :: post
        ∧ pre.count Event.assignDebugLog = (env.argv.drop 1).count "-d"
        ∧ (∀ e ∈ pre, e.isInitLogFile = false ∧ e ≠ Event.installMessageHandler)
        ∧ Event.assignDebugLog ∉ post := by
  refine ⟨?_, ?_, ?_, ?_⟩
  · rw [main_primary env ht, ← mem_drop_one_iff]
    simp [hr]
  · rw [main_primary env ht]
    dsimp only
    unfold windowSegment
    rw [← List.append_assoc, List.getLast?_append]
    rfl
  · rw [main_primary env ht]
  · refine ⟨startSegment env ++ [Event.configInit]
        ++ List.replicate ((env.argv.drop 1).count "-d") Event.assignDebugLog,
      localeSegment env ++ windowSegment env, ?_, ?_, ?_, ?_⟩
    · rw [main_primary env ht]
      simp only [sinkSegment, hr, if_true, List.append_assoc, List.singleton_append,
        List.cons_append, List.nil_append]
    · have h1 : (startSegment env).count Event.assignDebugLog = 0 := by
        rw [List.count_eq_zero]
        intro he
        rcases startSegment_mem env _ he with h | h | h <;> cases h
      simp [List.count_append, h1, List.count_replicate]
    · intro e he
      simp only [List.mem_append, List.mem_singleton] at he
      rcases he with (he | he) | he
      · rcases startSegment_mem env e he with h | h | h <;> subst h <;>
          exact ⟨rfl, fun h => Event.noConfusion h⟩
      · subst he; exact ⟨rfl, fun h => Event.noConfusion h⟩
      · rw [List.eq_of_mem_replicate he]
        exact ⟨rfl, fun h => Event.noConfusion h⟩
    · intro he
      simp only [List.mem_append] at he
      rcases he with he | he
      · rcases localeSegment_mem env _ he with h | h | h | ⟨n, d, h⟩ | ⟨n, d, h⟩
        · cases h
        · cases h
        · simp [Event.isQDebug] at h
        · cases h
        · cases h
      · rcases windowSegment_mem env _ he with h | h | h | h | h | h | h | h <;> cases h

/-- Witness for C8: of the arguments -d (as the program name), -dd, d and --d
none sets the flag; a later -d does. -/
theorem main_debugLog_flag_witness :
    (main (sampleEnv true true ["-d", "-dd", "d", "--d"])).g_debugLog = false
    ∧ (main (sampleEnv true true ["vnote", "x.md", "-d"])).g_debugLog = true
    ∧ (main (sampleEnv true true ["-d", "-dd", "d", "--d"])).trace.getLast? = some Event.exec :=
  ⟨by
    have h := (main_debugLog_flag (sampleEnv true true ["-d", "-dd", "d", "--d"]) rfl rfl).1
    cases hg : (main (sampleEnv true true ["-d", "-dd", "d", "--d"])).g_debugLog
    · rfl
    · obtain ⟨i, h1, h2, h3⟩ := h.mp hg
      have h4 : i < 4 := h2
      interval_cases i <;> exact absurd h3 (by decide),
   ((main_debugLog_flag (sampleEnv true true ["vnote", "x.md", "-d"]) rfl rfl).1).mpr
      ⟨2, by decide, by decide, by decide⟩,
   (main_debugLog_flag (sampleEnv true true ["-d", "-dd", "d", "--d"]) rfl rfl).2.1⟩

end VNote
